import Mathlib

/-!
Shallow embedding of the quiz spreadsheet parser (`src/upload.py`,
endpoint `parse_quiz_excel`).

The HTTP / pandas layers are out of scope: we model the computation from
the point where the uploaded bytes have been decoded into a rectangular
table (ordered column names, rows of cells).  A cell is `Option String`:
`none` models a missing value / pandas `NaN`; `some s` a cell whose
`str()` rendering is `s`.  A row is an association list from column name
to cell, mirroring `row.get(col)`.

All errors the Python code returns as `JSONResponse(status_code=400, ...)`
are modelled by the inductive `ParseError`; `errorMessage` reproduces the
exact message strings the code builds.
-/

/-- Python's `str.strip()`: drop whitespace from both ends. -/
def pyStrip (s : String) : String :=
  String.mk ((s.data.dropWhile Char.isWhitespace).reverse.dropWhile Char.isWhitespace).reverse

/-- Python's `str.lower()` (ASCII case folding). -/
def pyLower (s : String) : String :=
  String.mk (s.data.map Char.toLower)

/-- A cell value: `none` is missing/NaN, `some s` is the cell's string form. -/
abbrev Cell := Option String

/-- A table row: association list from column name to cell value. -/
abbrev Row := List (String × Cell)

/-- The source read `row.get(col)` for an option column: a missing key behaves like NaN
(`pd.isna(None)` is true in the source's skip test). -/
def Row.cellAt (r : Row) (col : String) : Cell :=
  match r.lookup col with
  | none => none
  | some c => c

/-- The source read `row.get("question", "")`: a missing key defaults to the empty string. -/
def Row.questionRaw (r : Row) : Cell :=
  match r.lookup "question" with
  | none => some ""
  | some c => c

/-- The source's skip test `pd.isna(x) or not str(x).strip()`. -/
def cellBlank : Cell → Bool
  | none => true
  | some s => pyStrip s == ""

/-- The decoded spreadsheet: ordered column names and data rows. -/
structure Table where
  columns : List String
  rows : List Row
deriving Repr

/-- A parsed option: objective options carry `isCorrect`, tag options a tag. -/
inductive QOption where
  | objective (text : String) (isCorrect : Bool)
  | tagged (text : String) (tag : String)
deriving Repr, DecidableEq

/-- The field `option["isCorrect"]` as used in the aggregate per-row check; only ever
applied to objective options in the source (the check runs in objective mode,
where every built option is objective). -/
def QOption.isCorrectOpt : QOption → Bool
  | QOption.objective _ b => b
  | QOption.tagged _ _ => false

/-- A parsed question: the dict `{"question": ..., "options": [...]}`. -/
structure Question where
  question : String
  options : List QOption
deriving Repr, DecidableEq

/-- The success payload `{"questions": [...], "count": N}`. -/
structure ParseOutput where
  questions : List Question
  count : Nat
deriving Repr, DecidableEq

/-- The distinct 400-error responses of `parse_quiz_excel` reachable after
tabular decode, plus the quiz-type rejection that precedes it. -/
inductive ParseError where
  | invalidQuizType
  | missingQuestionColumn
  | invalidOptionFormat (rowNum : Nat) (col : String) (optionText : String) (msg : String)
  | noCorrectAnswer (rowNum : Nat)
  | noValidQuestions
deriving Repr, DecidableEq

/-- The exact message strings built by the source for each error. -/
def errorMessage : ParseError → String
  | ParseError.invalidQuizType =>
      "Invalid quiz type. Must be 'objective' or 'tag'."
  | ParseError.missingQuestionColumn =>
      "Excel file must contain a 'question' column."
  | ParseError.invalidOptionFormat rowNum col optionText msg =>
      "Invalid option format in row " ++ toString rowNum ++ ", column '" ++ col ++
        "': '" ++ optionText ++ "'. Error: " ++ msg
  | ParseError.noCorrectAnswer rowNum =>
      "Objective question in row " ++ toString rowNum ++
        " must have at least one correct answer."
  | ParseError.noValidQuestions =>
      "No valid questions found in the Excel file."

/-- Python's `s.rsplit("-", 1)` restricted to the shapes the source uses:
result `([], s)` when `s` has no hyphen (Python returns `[s]`, so the
destructuring `*value_parts, extra` leaves `value_parts` empty), and
`([before], after)` split at the last hyphen otherwise. -/
def rsplitLast (s : String) : List String × String :=
  match (s.data.reverse).dropWhile (fun c => c ≠ '-') with
  | [] => ([], s)
  | _ :: valueRev =>
      ([String.mk valueRev.reverse],
       String.mk ((s.data.reverse).takeWhile (fun c => c ≠ '-')).reverse)

/-- The strict-mode cell parser (the `try` body under `require_option_format`):
split at the last hyphen, trim both parts, require both non-empty; for
objective quizzes the extra part must be true/false case-insensitively. -/
def parseStrictCell (quizType : String) (optionText : String) : Except String QOption :=
  let parts := rsplitLast optionText
  let value := pyStrip (String.intercalate "-" parts.1)
  let extra := pyStrip parts.2
  if value == "" || extra == "" then
    Except.error "Empty value or property"
  else if quizType == "objective" then
    if !(pyLower extra == "true" || pyLower extra == "false") then
      Except.error "Property must be 'true' or 'false'"
    else
      Except.ok (QOption.objective value (pyLower extra == "true"))
  else
    Except.ok (QOption.tagged value extra)

/-- The inner column loop of the source: walk the columns in order, skip the
`question` column and blank cells, parse the rest (strictly or leniently),
stopping at the first format error. -/
def parseRowOptions (quizType : String) (strict : Bool) (rowNum : Nat) (r : Row) :
    List String → Except ParseError (List QOption)
  | [] => Except.ok []
  | col :: rest =>
    if col == "question" then
      parseRowOptions quizType strict rowNum r rest
    else if cellBlank (r.cellAt col) then
      parseRowOptions quizType strict rowNum r rest
    else
      let optionText := pyStrip ((r.cellAt col).getD "")
      if strict then
        match parseStrictCell quizType optionText with
        | Except.error msg =>
            Except.error (ParseError.invalidOptionFormat rowNum col optionText msg)
        | Except.ok o =>
            match parseRowOptions quizType strict rowNum r rest with
            | Except.error e => Except.error e
            | Except.ok os => Except.ok (o :: os)
      else
        let o := if quizType == "objective" then QOption.objective optionText false
                 else QOption.tagged optionText col
        match parseRowOptions quizType strict rowNum r rest with
        | Except.error e => Except.error e
        | Except.ok os => Except.ok (o :: os)

/-- The outer row loop (`for index, row in df.iterrows()`): skip rows with a
blank question cell, build the option list, skip rows with no options, run the
aggregate per-row correct-answer check (objective + strict only), and
accumulate questions in row order.  `index` is the 0-based row index; error
messages use `index + 2` (header row plus 1-based numbering). -/
def parseRows (quizType : String) (strict : Bool) (cols : List String) :
    List Row → Nat → Except ParseError (List Question)
  | [], _ => Except.ok []
  | r :: rest, index =>
    if cellBlank r.questionRaw then
      parseRows quizType strict cols rest (index + 1)
    else
      let questionText := pyStrip (r.questionRaw.getD "")
      match parseRowOptions quizType strict (index + 2) r cols with
      | Except.error e => Except.error e
      | Except.ok opts =>
        if opts.isEmpty then
          parseRows quizType strict cols rest (index + 1)
        else if quizType == "objective" && strict && !(opts.any QOption.isCorrectOpt) then
          Except.error (ParseError.noCorrectAnswer (index + 2))
        else
          match parseRows quizType strict cols rest (index + 1) with
          | Except.error e => Except.error e
          | Except.ok qs => Except.ok (Question.mk questionText opts :: qs)

/-- The endpoint from the point where the table is decoded: validate the quiz
type, require a `question` column, parse the rows, and reject an empty result. -/
def parse_quiz_excel (quizType : String) (requireOptionFormat : Bool) (t : Table) :
    Except ParseError ParseOutput :=
  if !(quizType == "objective" || quizType == "tag-based") then
    Except.error ParseError.invalidQuizType
  else if !(t.columns.contains "question") then
    Except.error ParseError.missingQuestionColumn
  else
    match parseRows quizType requireOptionFormat t.columns t.rows 0 with
    | Except.error e => Except.error e
    | Except.ok qs =>
      if qs.isEmpty then Except.error ParseError.noValidQuestions
      else Except.ok (ParseOutput.mk qs qs.length)

/-- The single-row round-trip table of C1. -/
def c1Table : Table :=
  Table.mk ["question", "opt1"]
    [[("question", some "What is 2+2?"), ("opt1", some "4-true")]]

/-- C1: the table with columns `question`, `opt1` and single row
`["What is 2+2?", "4-true"]`, parsed as objective + strict, succeeds with one
question of text `"What is 2+2?"` and single option `{text: "4", isCorrect: true}`. -/
theorem c1_round_trip :
    parse_quiz_excel "objective" true c1Table =
      Except.ok (ParseOutput.mk
        [Question.mk "What is 2+2?" [QOption.objective "4" true]] 1) := by
  rfl

/-- The tag-based last-hyphen table of C4. -/
def c4Table : Table :=
  Table.mk ["question", "opt1"]
    [[("question", some "Q1"), ("opt1", some "urgent-math-tag")]]

/-- C4: in strict mode a cell is split at its last hyphen, so values may
contain hyphens: under tag-based type, cell `"urgent-math-tag"` yields the
option `{text: "urgent-math", tag: "tag"}`, at the cell parser and through the
whole pipeline. -/
theorem c4_last_hyphen_split :
    parseStrictCell "tag-based" "urgent-math-tag" =
      Except.ok (QOption.tagged "urgent-math" "tag") ∧
    parse_quiz_excel "tag-based" true c4Table =
      Except.ok (ParseOutput.mk
        [Question.mk "Q1" [QOption.tagged "urgent-math" "tag"]] 1) :=
  ⟨rfl, rfl⟩

/-- The strict objective table of C10 with whitespace around the hyphen. -/
def c10Table : Table :=
  Table.mk ["question", "opt1"]
    [[("question", some "Q"), ("opt1", some "4 - true")]]

/-- C10: in strict mode whitespace around the last hyphen is trimmed from both
parts, and the extra part is compared to true/false case-insensitively: cell
`"4 - true"` (and `"4 - TRUE"`) under objective type yields
`{text: "4", isCorrect: true}`, at the cell parser and through the pipeline. -/
theorem c10_hyphen_whitespace_trimmed :
    parseStrictCell "objective" "4 - true" =
      Except.ok (QOption.objective "4" true) ∧
    parseStrictCell "objective" "4 - TRUE" =
      Except.ok (QOption.objective "4" true) ∧
    parse_quiz_excel "objective" true c10Table =
      Except.ok (ParseOutput.mk [Question.mk "Q" [QOption.objective "4" true]] 1) :=
  ⟨rfl, rfl, rfl⟩
/-- Every error produced by the column loop is a format error (row- and
column-scoped); in particular it is never the quiz-type rejection. -/
theorem parseRowOptions_error_isFormat (quizType : String) (strict : Bool)
    (rowNum : Nat) (r : Row) (cols : List String) (e : ParseError)
    (h : parseRowOptions quizType strict rowNum r cols = Except.error e) :
    ∃ rn c t m, e = ParseError.invalidOptionFormat rn c t m := by
  induction cols with
  | nil => simp [parseRowOptions] at h
  | cons col rest ih =>
    simp only [parseRowOptions] at h
    split at h
    · exact ih h
    · split at h
      · exact ih h
      · split at h
        · split at h
          · exact ⟨_, _, _, _, ((Except.error.injEq _ _).mp h).symm⟩
          · split at h
            · rename_i e2 heq
              obtain rfl := (Except.error.injEq _ _).mp h
              exact ih heq
            · simp at h
        · split at h
          · rename_i e2 heq
            obtain rfl := (Except.error.injEq _ _).mp h
            exact ih heq
          · simp at h
/-- Every error produced by the row loop is row-scoped (a format error or the
missing-correct-answer error): the quiz-type, schema and empty-result errors
never arise inside it. -/
theorem parseRows_error_not_global (quizType : String) (strict : Bool)
    (cols : List String) (rows : List Row) (idx : Nat) (e : ParseError)
    (h : parseRows quizType strict cols rows idx = Except.error e) :
    e ≠ ParseError.invalidQuizType ∧ e ≠ ParseError.missingQuestionColumn ∧
      e ≠ ParseError.noValidQuestions := by
  induction rows generalizing idx with
  | nil => simp [parseRows] at h
  | cons r rest ih =>
    simp only [parseRows] at h
    split at h
    · exact ih _ h
    · split at h
      · rename_i e2 heq
        obtain rfl := (Except.error.injEq _ _).mp h
        obtain ⟨rn, c, t, m, rfl⟩ := parseRowOptions_error_isFormat _ _ _ _ _ _ heq
        simp
      · split at h
        · exact ih _ h
        · split at h
          · obtain rfl := (Except.error.injEq _ _).mp h
            simp
          · split at h
            · rename_i e2 heq
              obtain rfl := (Except.error.injEq _ _).mp h
              exact ih _ heq
            · simp at h

/-- In lenient mode the column loop cannot fail. -/
theorem parseRowOptions_lenient_isOk (quizType : String) (rowNum : Nat) (r : Row)
    (cols : List String) :
    ∃ os, parseRowOptions quizType false rowNum r cols = Except.ok os := by
  induction cols with
  | nil => exact ⟨[], rfl⟩
  | cons col rest ih =>
    obtain ⟨os, hos⟩ := ih
    simp only [parseRowOptions, hos, Bool.false_eq_true, if_false]
    split
    · exact ⟨os, rfl⟩
    · split
      · exact ⟨os, rfl⟩
      · exact ⟨_, rfl⟩

/-- In lenient mode the row loop cannot fail. -/
theorem parseRows_lenient_isOk (quizType : String) (cols : List String)
    (rows : List Row) (idx : Nat) :
    ∃ qs, parseRows quizType false cols rows idx = Except.ok qs := by
  induction rows generalizing idx with
  | nil => exact ⟨[], rfl⟩
  | cons r rest ih =>
    obtain ⟨qs, hqs⟩ := ih (idx + 1)
    obtain ⟨os, hos⟩ := parseRowOptions_lenient_isOk quizType (idx + 2) r cols
    simp only [parseRows, hqs, hos, Bool.and_false, Bool.false_and, Bool.and_self,
      Bool.false_eq_true, if_false]
    split
    · exact ⟨qs, rfl⟩
    · split
      · exact ⟨qs, rfl⟩
      · exact ⟨_, rfl⟩
/-- The lenient objective table of C6 (no correct answer marked anywhere). -/
def c6Table : Table :=
  Table.mk ["question", "opt1"]
    [[("question", some "Capital of France?"), ("opt1", some "Paris")]]

/-- C6: in lenient mode with objective type every non-empty cell becomes
`{text: cellText, isCorrect: false}`, the per-row correct-answer check never
fires in lenient mode (no input yields that error), and a request whose
options are all incorrect still succeeds. -/
theorem c6_lenient_objective :
    (∀ (rowNum : Nat) (r : Row) (cols : List String) (opts : List QOption),
       parseRowOptions "objective" false rowNum r cols = Except.ok opts →
       ∀ o ∈ opts, ∃ t, o = QOption.objective t false) ∧
    (∀ (quizType : String) (t : Table) (n : Nat),
       parse_quiz_excel quizType false t ≠
         Except.error (ParseError.noCorrectAnswer n)) ∧
    parse_quiz_excel "objective" false c6Table =
      Except.ok (ParseOutput.mk
        [Question.mk "Capital of France?" [QOption.objective "Paris" false]] 1) := by
  refine ⟨?_, ?_, rfl⟩
  · intro rowNum r cols
    induction cols with
    | nil =>
      intro opts h o ho
      simp only [parseRowOptions] at h
      obtain rfl := (Except.ok.injEq _ _).mp h
      simp at ho
    | cons col rest ih =>
      intro opts h o ho
      simp only [parseRowOptions, Bool.false_eq_true, if_false] at h
      split at h
      · exact ih opts h o ho
      · split at h
        · exact ih opts h o ho
        · split at h
          · simp at h
          · rename_i os heq
            obtain rfl := (Except.ok.injEq _ _).mp h
            rcases List.mem_cons.mp ho with rfl | hmem
            · exact ⟨_, rfl⟩
            · exact ih os heq o hmem
  · intro quizType t n h
    simp only [parse_quiz_excel] at h
    split at h
    · simp at h
    · split at h
      · simp at h
      · obtain ⟨qs, hqs⟩ := parseRows_lenient_isOk quizType t.columns t.rows 0
        rw [hqs] at h
        split at h
        · rename_i e heq
          simp at heq
        · split at h
          · simp at h
          · simp at h

/-- Witness for C6: the per-cell fact at the concrete lenient option, and the
concrete no-correct-answer error never arising. -/
theorem c6_witness :
    (∃ t, QOption.objective "Paris" false = QOption.objective t false) ∧
    parse_quiz_excel "objective" false c6Table ≠
      Except.error (ParseError.noCorrectAnswer 2) :=
  ⟨c6_lenient_objective.1 2 [("opt1", some "Paris")] ["opt1"]
      [QOption.objective "Paris" false] rfl _ (List.mem_singleton_self _),
   c6_lenient_objective.2.1 "objective" c6Table 2⟩
/-- A two-row table whose first row has a whitespace-only question cell but a
valid option cell; only the second row survives. -/
def c7Table : Table :=
  Table.mk ["question", "opt1"]
    [[("question", some "   "), ("opt1", some "3-true")],
     [("question", some "Q2"), ("opt1", some "4-true")]]

/-- C7: a row whose question cell is missing, empty or whitespace-only is
skipped entirely — the row loop on it equals the loop on the remaining rows
with the index advanced, so no Question and no error come from it — and
concretely a blank-question row with valid options is silently dropped. -/
theorem c7_blank_question_row_skipped :
    (∀ (quizType : String) (strict : Bool) (cols : List String) (r : Row)
       (rest : List Row) (idx : Nat), cellBlank r.questionRaw = true →
       parseRows quizType strict cols (r :: rest) idx =
         parseRows quizType strict cols rest (idx + 1)) ∧
    parse_quiz_excel "objective" true c7Table =
      Except.ok (ParseOutput.mk [Question.mk "Q2" [QOption.objective "4" true]] 1) := by
  refine ⟨?_, rfl⟩
  intro quizType strict cols r rest idx h
  simp [parseRows, h]

/-- Witness for C7: the skip equation at a concrete blank-question row. -/
theorem c7_witness :
    parseRows "objective" true ["question", "opt1"]
        [[("question", some "   "), ("opt1", some "3-true")]] 0 =
      parseRows "objective" true ["question", "opt1"] [] 1 :=
  c7_blank_question_row_skipped.1 "objective" true ["question", "opt1"]
    [("question", some "   "), ("opt1", some "3-true")] [] 0 (by decide)

/-- C8: when the table has no `question` column the request fails with the
schema error, for every row list alike (no row is processed), for both
accepted quiz types — the check sits after decode and before the row loop. -/
theorem c8_missing_question_column (quizType : String)
    (hqt : quizType = "objective" ∨ quizType = "tag-based")
    (strict : Bool) (cols : List String) (rows : List Row)
    (h : cols.contains "question" = false) :
    parse_quiz_excel quizType strict (Table.mk cols rows) =
      Except.error ParseError.missingQuestionColumn := by
  have h2 : "question" ∉ cols := by simpa using h
  rcases hqt with rfl | rfl <;> simp [parse_quiz_excel, h2]

/-- Witness for C8: a concrete table without a `question` column, whose one
row would parse fine were it reached. -/
theorem c8_witness :
    parse_quiz_excel "objective" true
        (Table.mk ["q"] [[("q", some "x-true")]]) =
      Except.error ParseError.missingQuestionColumn :=
  c8_missing_question_column "objective" (Or.inl rfl) true ["q"]
    [[("q", some "x-true")]] (by decide)

/-- C9: any quiz type other than exactly `"objective"` or `"tag-based"` is
rejected with the quiz-type error, whose message reads
`Invalid quiz type. Must be 'objective' or 'tag'.` (saying `tag` although the
accepted value is `tag-based`), while `"tag-based"` itself is never rejected
with that error. -/
theorem c9_quiz_type_validation :
    (∀ (quizType : String) (strict : Bool) (t : Table),
       quizType ≠ "objective" → quizType ≠ "tag-based" →
       parse_quiz_excel quizType strict t =
         Except.error ParseError.invalidQuizType) ∧
    errorMessage ParseError.invalidQuizType =
      "Invalid quiz type. Must be 'objective' or 'tag'." ∧
    (∀ (strict : Bool) (t : Table),
       parse_quiz_excel "tag-based" strict t ≠
         Except.error ParseError.invalidQuizType) := by
  refine ⟨?_, rfl, ?_⟩
  · intro quizType strict t h1 h2
    simp [parse_quiz_excel, h1, h2]
  · intro strict t h
    simp only [parse_quiz_excel] at h
    split at h
    · simp at *
    · split at h
      · simp at h
      · split at h
        · rename_i e heq
          obtain rfl := (Except.error.injEq _ _).mp h
          exact (parseRows_error_not_global _ _ _ _ _ _ heq).1 rfl
        · split at h
          · simp at h
          · simp at h

/-- Witness for C9: the quiz type `"tag"` (the very value the message names)
is rejected, and `"tag-based"` is not rejected, on a concrete table. -/
theorem c9_witness :
    parse_quiz_excel "tag" true (Table.mk ["question"] []) =
        Except.error ParseError.invalidQuizType ∧
    parse_quiz_excel "tag-based" true (Table.mk ["question"] []) ≠
        Except.error ParseError.invalidQuizType :=
  ⟨c9_quiz_type_validation.1 "tag" true (Table.mk ["question"] [])
      (by decide) (by decide),
   c9_quiz_type_validation.2.2 true (Table.mk ["question"] [])⟩
/-- Errors reached after a successfully parsed prefix of rows surface as the
result of the whole row loop. -/
theorem parseRows_reaches_error (quizType : String) (strict : Bool)
    (cols : List String) (pre rest : List Row) (idx : Nat) (qs : List Question)
    (e : ParseError)
    (hpre : parseRows quizType strict cols pre idx = Except.ok qs)
    (hrest : parseRows quizType strict cols rest (idx + pre.length) = Except.error e) :
    parseRows quizType strict cols (pre ++ rest) idx = Except.error e := by
  induction pre generalizing idx qs with
  | nil => simpa using hrest
  | cons p ps ih =>
    rw [List.length_cons] at hrest
    have hlen : idx + (ps.length + 1) = (idx + 1) + ps.length := by omega
    rw [hlen] at hrest
    simp only [parseRows] at hpre
    simp only [List.cons_append, parseRows]
    split
    · rename_i hb
      rw [if_pos hb] at hpre
      exact ih _ _ hpre hrest
    · rename_i hb
      rw [if_neg hb] at hpre
      split at hpre
      · simp at hpre
      · rename_i opts hopts
        split at hpre
        · rename_i hemp
          rw [if_pos hemp]
          exact ih _ _ hpre hrest
        · rename_i hemp
          rw [if_neg hemp]
          split at hpre
          · simp at hpre
          · rename_i hchk
            rw [if_neg hchk]
            split at hpre
            · simp at hpre
            · rename_i qs2 hqs2
              rw [List.append_eq, ih _ _ hqs2 hrest]

/-- An error from the row loop surfaces unchanged as the endpoint result when
the quiz type and the schema check pass. -/
theorem parse_quiz_excel_error (quizType : String) (strict : Bool) (t : Table)
    (e : ParseError)
    (h1 : quizType = "objective" ∨ quizType = "tag-based")
    (h2 : t.columns.contains "question" = true)
    (h3 : parseRows quizType strict t.columns t.rows 0 = Except.error e) :
    parse_quiz_excel quizType strict t = Except.error e := by
  have h4 : "question" ∈ t.columns := by simpa using h2
  rcases h1 with rfl | rfl <;> simp [parse_quiz_excel, h4, h3]

/-- A row at the head of the loop with a non-blank question, a non-empty
option list and no correct option produces the per-row validation error
immediately (objective + strict). -/
theorem parseRows_head_noCorrect (cols : List String) (r : Row)
    (rest : List Row) (idx : Nat) (opts : List QOption)
    (hq : cellBlank r.questionRaw = false)
    (hopts : parseRowOptions "objective" true (idx + 2) r cols = Except.ok opts)
    (hne : opts ≠ [])
    (hnc : opts.any QOption.isCorrectOpt = false) :
    parseRows "objective" true cols (r :: rest) idx =
      Except.error (ParseError.noCorrectAnswer (idx + 2)) := by
  obtain ⟨o, os, rfl⟩ := List.exists_cons_of_ne_nil hne
  simp [parseRows, hq, hopts, hnc]
/-- C2: objective + strict, for every table: when the rows before row `i`
parse without error, and row `i` has a non-blank question and a non-empty
option list with no correct option, the whole request fails with the
validation error naming spreadsheet row `i + 2`, whatever rows follow — so
no later row is parsed and no question from an earlier row is returned. -/
theorem c2_strict_objective_requires_correct (cols : List String)
    (pre suffix : List Row) (r : Row) (qs : List Question) (opts : List QOption)
    (hcol : cols.contains "question" = true)
    (hpre : parseRows "objective" true cols pre 0 = Except.ok qs)
    (hq : cellBlank r.questionRaw = false)
    (hopts : parseRowOptions "objective" true (pre.length + 2) r cols = Except.ok opts)
    (hne : opts ≠ [])
    (hnc : opts.any QOption.isCorrectOpt = false) :
    parse_quiz_excel "objective" true (Table.mk cols (pre ++ r :: suffix)) =
      Except.error (ParseError.noCorrectAnswer (pre.length + 2)) := by
  apply parse_quiz_excel_error _ _ _ _ (Or.inl rfl) hcol
  apply parseRows_reaches_error "objective" true cols pre (r :: suffix) 0 qs _ hpre
  rw [Nat.zero_add]
  exact parseRows_head_noCorrect cols r suffix pre.length opts hq hopts hne hnc

/-- Witness for C2: a strict objective row `["Q", "4-false", "5-false"]`
fails with the validation error naming spreadsheet row 2. -/
theorem c2_witness :
    parse_quiz_excel "objective" true
        (Table.mk ["question", "opt1", "opt2"]
          [[("question", some "Q"), ("opt1", some "4-false"),
            ("opt2", some "5-false")]]) =
      Except.error (ParseError.noCorrectAnswer 2) :=
  c2_strict_objective_requires_correct ["question", "opt1", "opt2"] [] []
    [("question", some "Q"), ("opt1", some "4-false"), ("opt2", some "5-false")]
    [] [QOption.objective "4" false, QOption.objective "5" false]
    (by decide) rfl rfl rfl (by simp) rfl
/-- Every question emitted by the row loop has a non-empty option list (the
`if not options: continue` guard). -/
theorem parseRows_ok_options_ne_nil (quizType : String) (strict : Bool)
    (cols : List String) (rows : List Row) (idx : Nat) (qs : List Question)
    (h : parseRows quizType strict cols rows idx = Except.ok qs) :
    ∀ q ∈ qs, q.options ≠ [] := by
  induction rows generalizing idx qs with
  | nil =>
    simp only [parseRows] at h
    obtain rfl := (Except.ok.injEq _ _).mp h
    simp
  | cons r rest ih =>
    simp only [parseRows] at h
    split at h
    · exact ih _ _ h
    · split at h
      · simp at h
      · rename_i opts hopts
        split at h
        · exact ih _ _ h
        · rename_i hemp
          split at h
          · simp at h
          · split at h
            · simp at h
            · rename_i qs2 hqs2
              obtain rfl := (Except.ok.injEq _ _).mp h
              intro q hqmem
              rcases List.mem_cons.mp hqmem with rfl | hmem
              · simpa using hemp
              · exact ih _ _ hqs2 q hmem

/-- A fresh copy of the C1 table for the C3 witness. -/
def c3Table : Table :=
  Table.mk ["question", "opt1"]
    [[("question", some "What is 2+2?"), ("opt1", some "4-true")]]

/-- C3: whenever parsing succeeds, the returned count equals the length of the
returned question list, and every returned question has a non-empty option
list. -/
theorem c3_count_and_nonempty (quizType : String) (strict : Bool) (t : Table)
    (out : ParseOutput)
    (h : parse_quiz_excel quizType strict t = Except.ok out) :
    out.count = out.questions.length ∧ ∀ q ∈ out.questions, q.options ≠ [] := by
  simp only [parse_quiz_excel] at h
  split at h
  · simp at h
  · split at h
    · simp at h
    · split at h
      · simp at h
      · rename_i qs hqs
        split at h
        · simp at h
        · obtain rfl := (Except.ok.injEq _ _).mp h
          exact ⟨rfl, parseRows_ok_options_ne_nil _ _ _ _ _ _ hqs⟩

/-- Witness for C3: the invariant at the concrete C1-style table. -/
theorem c3_witness :
    (ParseOutput.mk [Question.mk "What is 2+2?" [QOption.objective "4" true]] 1).count
        = (ParseOutput.mk
            [Question.mk "What is 2+2?" [QOption.objective "4" true]] 1).questions.length ∧
      ∀ q ∈ (ParseOutput.mk
          [Question.mk "What is 2+2?" [QOption.objective "4" true]] 1).questions,
        q.options ≠ [] :=
  c3_count_and_nonempty "objective" true c3Table _ rfl
/-- Errors reached after successfully parsed columns surface as the result of
the whole column loop. -/
theorem parseRowOptions_reaches_error (quizType : String) (strict : Bool)
    (rowNum : Nat) (r : Row) (cols1 cols2 : List String) (os : List QOption)
    (e : ParseError)
    (h1 : parseRowOptions quizType strict rowNum r cols1 = Except.ok os)
    (h2 : parseRowOptions quizType strict rowNum r cols2 = Except.error e) :
    parseRowOptions quizType strict rowNum r (cols1 ++ cols2) = Except.error e := by
  induction cols1 generalizing os with
  | nil => simpa using h2
  | cons c cs ih =>
    simp only [parseRowOptions] at h1
    simp only [List.cons_append, parseRowOptions]
    split
    · rename_i hc
      rw [if_pos hc] at h1
      exact ih _ h1
    · rename_i hc
      rw [if_neg hc] at h1
      split
      · rename_i hb
        rw [if_pos hb] at h1
        exact ih _ h1
      · rename_i hb
        rw [if_neg hb] at h1
        split at h1
        · rename_i hst
          split at h1
          · simp at h1
          · split at h1
            · simp at h1
            · rename_i os2 hos2
              rw [List.append_eq, ih _ hos2, if_pos hst]
        · rename_i hst
          split at h1
          · simp at h1
          · rename_i os2 hos2
            rw [List.append_eq, ih _ hos2, if_neg hst]
/-- A string with no hyphen makes the strict cell parser fail: Python's
`rsplit("-", 1)` returns the whole string as the extra part, leaving the
value part empty. -/
theorem parseStrictCell_no_hyphen (quizType s : String) (hh : '-' ∉ s.data) :
    parseStrictCell quizType s = Except.error "Empty value or property" := by
  have hd : (s.data.reverse).dropWhile (fun c => c ≠ '-') = [] := by
    rw [List.dropWhile_eq_nil_iff]
    intro x hx
    have hxne : x ≠ '-' := by
      intro hcon
      subst hcon
      exact hh (List.mem_reverse.mp hx)
    simpa using hxne
  have hsplit : rsplitLast s = ([], s) := by
    simp only [rsplitLast, hd]
  have hv : pyStrip (String.intercalate "-" []) = "" := rfl
  simp [parseStrictCell, hsplit, hv]

/-- A non-blank cell at the head column whose strict parse fails aborts the
column loop with the format error naming the row, the column and the trimmed
cell text. -/
theorem parseRowOptions_head_error (quizType : String) (rowNum : Nat) (r : Row)
    (col : String) (cols2 : List String) (s msg : String)
    (hcol : (col == "question") = false)
    (hcell : r.cellAt col = some s)
    (hnb : (pyStrip s == "") = false)
    (hfail : parseStrictCell quizType (pyStrip s) = Except.error msg) :
    parseRowOptions quizType true rowNum r (col :: cols2) =
      Except.error (ParseError.invalidOptionFormat rowNum col (pyStrip s) msg) := by
  simp only [parseRowOptions, hcol, hcell, cellBlank, hnb, Option.getD_some, hfail,
    Bool.false_eq_true, if_false, if_true]

/-- A failing column loop at the head row aborts the row loop with its error. -/
theorem parseRows_head_error (quizType : String) (strict : Bool)
    (cols : List String) (r : Row) (rest : List Row) (idx : Nat) (e : ParseError)
    (hq : cellBlank r.questionRaw = false)
    (hopts : parseRowOptions quizType strict (idx + 2) r cols = Except.error e) :
    parseRows quizType strict cols (r :: rest) idx = Except.error e := by
  simp only [parseRows, hq, Bool.false_eq_true, if_false, hopts]

/-- C5: in strict mode, once parsing reaches a non-empty cell with no hyphen —
the earlier rows and the earlier columns of its row parsed fine — the whole
request fails with the format error naming that cell's spreadsheet row and
column, whatever columns and rows follow: no result is returned and nothing
past the cell is parsed. -/
theorem c5_no_hyphen_cell_fails (quizType : String)
    (hqt : quizType = "objective" ∨ quizType = "tag-based")
    (cols1 cols2 : List String) (col : String) (pre suffix : List Row) (r : Row)
    (qs : List Question) (os : List QOption) (s : String)
    (hcols : (cols1 ++ col :: cols2).contains "question" = true)
    (hpre : parseRows quizType true (cols1 ++ col :: cols2) pre 0 = Except.ok qs)
    (hq : cellBlank r.questionRaw = false)
    (hcols1 : parseRowOptions quizType true (pre.length + 2) r cols1 = Except.ok os)
    (hcol : (col == "question") = false)
    (hcell : r.cellAt col = some s)
    (hnb : (pyStrip s == "") = false)
    (hh : '-' ∉ (pyStrip s).data) :
    parse_quiz_excel quizType true
        (Table.mk (cols1 ++ col :: cols2) (pre ++ r :: suffix)) =
      Except.error (ParseError.invalidOptionFormat (pre.length + 2) col (pyStrip s)
        "Empty value or property") := by
  apply parse_quiz_excel_error _ _ _ _ hqt hcols
  apply parseRows_reaches_error quizType true _ pre (r :: suffix) 0 qs _ hpre
  rw [Nat.zero_add]
  apply parseRows_head_error _ _ _ _ _ _ _ hq
  apply parseRowOptions_reaches_error _ _ _ _ cols1 (col :: cols2) os _ hcols1
  exact parseRowOptions_head_error quizType (pre.length + 2) r col cols2 s _ hcol hcell hnb
    (parseStrictCell_no_hyphen quizType (pyStrip s) hh)

/-- Witness for C5: the cell `"plainoption"` aborts a concrete request with
the format error naming row 2 and column `opt1`. -/
theorem c5_witness :
    parse_quiz_excel "objective" true
        (Table.mk ["question", "opt1"]
          [[("question", some "Q"), ("opt1", some "plainoption")]]) =
      Except.error (ParseError.invalidOptionFormat 2 "opt1" "plainoption"
        "Empty value or property") :=
  c5_no_hyphen_cell_fails "objective" (Or.inl rfl) ["question"] [] "opt1" [] []
    [("question", some "Q"), ("opt1", some "plainoption")] [] [] "plainoption"
    (by decide) rfl (by decide) rfl (by decide) rfl (by decide) (by decide)
